import Mathlib

/-!
Shallow embedding of `src/main.rs` of ctr-camera-rs.

The program is a single frame-polled control loop over host services
(input, console, software keyboard, camera, sockets).  We embed the loop
body as a step function `loopStep` on the loop's mutable state
(`status : AppStatus`, `stream_or_none : Option TcpStream`), parameterised
by an `Env` record that supplies, for one iteration, the keys held and the
outcomes of every host call the iteration may perform (keyboard applet,
TCP connect, `peek`, `peer_addr`, `shutdown`, `cfgu.model()`, camera
queries).  Side effects are recorded as a trace of `Action`s; a `.unwrap()`
or `.expect(...)` on an error outcome is modelled as `StepResult.panicked`.
-/

namespace CtrCamera

/-- Abstract handle standing for a `std::net::TcpStream` value. -/
structure TcpStream where
  handle : Nat
deriving Repr, DecidableEq

/-- Abstract payload of a `ctru::Error`. -/
structure CtruError where
  code : Nat
deriving Repr, DecidableEq

/-- Abstract payload of a `ctru::applets::swkbd::Error`. -/
structure SwkbdError where
  code : Nat
deriving Repr, DecidableEq

/-- Abstract payload of a `std::io::Error`. -/
structure IoError where
  code : Nat
deriving Repr, DecidableEq

/-- The button reported by `Swkbd::get_string` (ctru swkbd `Button`). -/
inductive Button where
  | left
  | middle
  | right
deriving Repr, DecidableEq

/-- The `AppStatus` enum of `main.rs`. -/
inductive AppStatus where
  | notConnected
  | connected
  | settings
deriving Repr, DecidableEq

/-- The `AppError` enum of `main.rs` (thiserror derive). -/
inductive AppError where
  | unknown
  | ctru (e : CtruError)
  | swkbd (e : SwkbdError)
  | ioError (e : IoError)
deriving Repr, DecidableEq

/-- The `Display` string produced by the `#[error(...)]` attributes on
`AppError`; `println!("{}", e)` prints exactly this line. -/
def AppError.message : AppError → String
  | .unknown => "Unknown error"
  | .ctru _ => "libctru error"
  | .swkbd _ => "Software keyboard error"
  | .ioError _ => "I/O error"

/-- `ctru::services::hid::KeyPad` is a bitflags word; we embed it as the
underlying bitmask.  Bit positions follow libctru (`A = 1 << 0`,
`B = 1 << 1`, `START = 1 << 3`, `X = 1 << 10`). -/
def KeyPad : Type := Nat

namespace KeyPad

def A : Nat := 1
def B : Nat := 2
def START : Nat := 8
def X : Nat := 1024

/-- `KeyPad::empty()`. -/
def empty : Nat := 0

/-- `KeyPad::intersects`: the two bit sets share at least one bit. -/
def intersects (a b : Nat) : Bool := a &&& b ≠ 0

end KeyPad

/-- One externally visible effect of a loop iteration. -/
inductive Action where
  | println (s : String)
  | consoleClear
  | openKeyboard
  | tcpConnect (addr : String)
  | peekStream (st : TcpStream)
  | shutdownStream (st : TcpStream)
  | setFrameRate
  | setOutputFormat
  | flushBuffers
  | swapBuffers
  | waitVBlank
deriving Repr, DecidableEq

/-- The mutable state of the `while apt.main_loop()` loop. -/
structure LoopState where
  status : AppStatus
  streamOrNone : Option TcpStream
deriving Repr, DecidableEq

/-- Outcomes of the host calls one loop iteration may perform. -/
structure Env where
  /-- `hid.keys_held()` after `hid.scan_input()`. -/
  keys : Nat
  /-- whether `stream.peek(&mut [0u8;0][..])` does NOT return an error. -/
  peekOk : TcpStream → Bool
  /-- result of `keyboard.get_string(64)` in `get_keyboard_text`. -/
  keyboard : Except SwkbdError (String × Button)
  /-- result of `TcpStream::connect(text)`. -/
  connect : String → Except IoError TcpStream
  /-- result of `stream.peer_addr()`. -/
  peerAddr : TcpStream → Except IoError String
  /-- result of `stream.shutdown(Both)`. -/
  shutdownRes : TcpStream → Except IoError Unit
  /-- `soc.host_address()`. -/
  hostAddr : String
  /-- result of `cfgu.model()` (Debug-printed in `setup`). -/
  cfguModel : Except CtruError String
  /-- result of `cam.is_auto_exposure_enabled()`. -/
  autoExposure : Except CtruError Bool
  /-- result of `cam.is_auto_white_balance_enabled()`. -/
  autoWhiteBalance : Except CtruError Bool
  /-- result of `cam.is_trimming_enabled()`. -/
  trimming : Except CtruError Bool

/-- `Except.isOk` as a plain boolean test. -/
def exceptIsOk {ε α : Type} : Except ε α → Bool
  | .ok _ => true
  | .error _ => false

/-- `fn get_keyboard_text() -> Result<Option<String>, AppError>`:
`Right` confirms the text, `Left` and `Middle` cancel, an applet error is
wrapped in `AppError::Swkbd`. -/
def get_keyboard_text (env : Env) : Except AppError (Option String) :=
  match env.keyboard with
  | .ok (text, .right) => .ok (some text)
  | .ok (_, .left) => .ok none
  | .ok (_, .middle) => .ok none
  | .error e => .error (.swkbd e)

/-- `fn try_connect() -> Result<Option<TcpStream>, AppError>`, with the
trace of effects it performs.  The keyboard applet runs first; only a
confirmed text is passed to `TcpStream::connect`. -/
def try_connect (env : Env) : Except AppError (Option TcpStream) × List Action :=
  match get_keyboard_text env with
  | .error e => (.error e, [Action.openKeyboard])
  | .ok none => (.ok none, [Action.openKeyboard])
  | .ok (some text) =>
    match env.connect text with
    | .ok s =>
      (.ok (some s),
        [Action.openKeyboard,
         Action.println ("Connecting to " ++ text ++ "..."),
         Action.tcpConnect text])
    | .error e =>
      (.error (.ioError e),
        [Action.openKeyboard,
         Action.println ("Connecting to " ++ text ++ "..."),
         Action.tcpConnect text])

/-- `fn init_cameras(cam: &mut BothOutwardCam) -> Result<(), AppError>`:
sets the frame rate, then the output format, propagating the first error
with `?`.  The trace records which setters actually ran. -/
def init_cameras (frameRate outputFormat : Except CtruError Unit) :
    Except AppError Unit × List Action :=
  match frameRate with
  | .error e => (.error (.ctru e), [Action.setFrameRate])
  | .ok _ =>
    match outputFormat with
    | .error e => (.error (.ctru e), [Action.setFrameRate, Action.setOutputFormat])
    | .ok _ => (.ok (), [Action.setFrameRate, Action.setOutputFormat])

/-- The banner lines `fn setup` prints when `cfgu.model()` succeeds. -/
def setupLines (hostAddr model : String) : List Action :=
  [Action.println "ctr-camera-rs v0.1.0 by Lena",
   Action.println "https://github.com/adryzz/ctr-camera-rs",
   Action.println ("IP: " ++ hostAddr ++ ", running on " ++ model),
   Action.println "Press START to exit or A to connect to a server.",
   Action.println "Press X to go into the settings menu",
   Action.println "\u001b[46;1m                \u001b[0m",
   Action.println "\u001b[45;1m                \u001b[0m",
   Action.println "\u001b[47m                \u001b[0m",
   Action.println "\u001b[45;1m                \u001b[0m",
   Action.println "\u001b[46;1m                \u001b[0m"]

/-- `fn setup(cfgu: &Cfgu, soc: &Soc)`: prints the banner; the
`cfgu.model().unwrap()` panics on error (modelled as `none`). -/
def setup (env : Env) : Option (List Action) :=
  match env.cfguModel with
  | .error _ => none
  | .ok m => some (setupLines env.hostAddr m)

/-- `fn settings(cam: &BothOutwardCam)`: prints the camera flags; each
query is `.unwrap()`ed, so any error panics (modelled as `none`). -/
def settings (env : Env) : Option (List Action) :=
  match env.autoExposure with
  | .error _ => none
  | .ok ae =>
    match env.autoWhiteBalance with
    | .error _ => none
    | .ok awb =>
      match env.trimming with
      | .error _ => none
      | .ok tr =>
        some [Action.println "Selected camera: yes",
              Action.println ("Auto exposure: " ++ toString ae),
              Action.println ("Auto white balance: " ++ toString awb),
              Action.println ("Trimming: " ++ toString tr)]

/-- Result of one iteration of the main loop body. -/
inductive StepResult where
  /-- loop continues with the new state, having emitted this trace. -/
  | next (s : LoopState) (tr : List Action)
  /-- `break` was executed: the loop exits normally. -/
  | exitLoop (tr : List Action)
  /-- an `.unwrap()`/`.expect(...)` hit an error: the process aborts. -/
  | panicked (tr : List Action)
deriving Repr, DecidableEq

/-- `gfx.flush_buffers(); gfx.swap_buffers(); gfx.wait_for_vblank();` at
the end of every continuing iteration. -/
def gfxEnd : List Action :=
  [Action.flushBuffers, Action.swapBuffers, Action.waitVBlank]

/-- The `if keys.intersects(KeyPad::A)` tail of the `NotConnected` arm,
entered with the state as already updated by the `X` check and the trace
emitted so far. -/
def notConnectedA (s : LoopState) (env : Env) (tr : List Action) : StepResult :=
  if KeyPad.intersects env.keys KeyPad.A then
    match try_connect env with
    | (.ok (some connection), ctr) =>
      match env.peerAddr connection with
      | .error _ => .panicked (tr ++ ctr)
      | .ok addr =>
        .next { status := .connected, streamOrNone := some connection }
          (tr ++ ctr ++ [Action.println ("Connected to " ++ addr ++ ".")] ++ gfxEnd)
    | (.ok none, ctr) =>
      .next s (tr ++ ctr ++ [Action.println "Cancelled"] ++ gfxEnd)
    | (.error e, ctr) =>
      .next s (tr ++ ctr ++ [Action.println (AppError.message e)] ++ gfxEnd)
  else
    .next s (tr ++ gfxEnd)

/-- The `match status` block of the loop body (reached when the key set
changed and START is not pressed). -/
def dispatchStatus (s : LoopState) (env : Env) : StepResult :=
  match s.status with
  | .notConnected =>
    if KeyPad.intersects env.keys KeyPad.X then
      match settings env with
      | none => .panicked []
      | some settingsTr =>
        notConnectedA { s with status := .settings } env settingsTr
    else
      notConnectedA s env []
  | .settings =>
    if KeyPad.intersects env.keys KeyPad.B then
      match setup env with
      | none => .panicked [Action.consoleClear]
      | some st =>
        .next { s with status := .notConnected }
          ([Action.consoleClear] ++ st ++ gfxEnd)
    else
      .next s gfxEnd
  | .connected =>
    match s.streamOrNone with
    | some stream =>
      if KeyPad.intersects env.keys KeyPad.B then
        match setup env with
        | none => .panicked [Action.consoleClear]
        | some st =>
          match env.peerAddr stream with
          | .error _ => .panicked ([Action.consoleClear] ++ st)
          | .ok addr =>
            match env.shutdownRes stream with
            | .error _ =>
              .panicked ([Action.consoleClear] ++ st ++
                [Action.println ("Disconnected from " ++ addr ++ "."),
                 Action.shutdownStream stream])
            | .ok _ =>
              .next { s with status := .notConnected }
                ([Action.consoleClear] ++ st ++
                 [Action.println ("Disconnected from " ++ addr ++ "."),
                  Action.shutdownStream stream] ++ gfxEnd)
      else
        .next s gfxEnd
    | none =>
      .next { s with status := .notConnected } gfxEnd

/-- The `if keys.intersects(KeyPad::START)` block: print, peek the stored
stream if any, shut it down when the peek succeeds, then `break`. -/
def startExit (s : LoopState) (env : Env) : StepResult :=
  match s.streamOrNone with
  | some st =>
    if env.peekOk st then
      match env.shutdownRes st with
      | .ok _ =>
        .exitLoop [Action.println "Exiting...", Action.peekStream st,
                   Action.shutdownStream st]
      | .error _ =>
        .panicked [Action.println "Exiting...", Action.peekStream st,
                   Action.shutdownStream st]
    else
      .exitLoop [Action.println "Exiting...", Action.peekStream st]
  | none => .exitLoop [Action.println "Exiting..."]

/-- The body inside `if keys != old_keys`. -/
def dispatch (s : LoopState) (env : Env) : StepResult :=
  if KeyPad.intersects env.keys KeyPad.START then
    startExit s env
  else
    dispatchStatus s env

/-- One iteration of `while apt.main_loop() { ... }`.  Note: `old_keys`
is `let old_keys = KeyPad::empty();`, declared before the loop and never
reassigned, so the guard `keys != old_keys` compares the held keys
against the EMPTY set on every iteration. -/
def loopStep (s : LoopState) (env : Env) : StepResult :=
  if env.keys ≠ KeyPad.empty then
    dispatch s env
  else
    .next s gfxEnd

/-- The loop state on entry to the first iteration. -/
def initialState : LoopState :=
  { status := .notConnected, streamOrNone := none }

/-- `main`'s camera setup: `init_cameras(camera).unwrap()`; an error here
terminates the program before the loop starts. -/
def startup (frameRate outputFormat : Except CtruError Unit) : Option LoopState :=
  match init_cameras frameRate outputFormat with
  | (.error _, _) => none
  | (.ok _, _) => some initialState

/-- States reachable at the top of a loop iteration. -/
inductive Reachable : LoopState → Prop where
  | init : Reachable initialState
  | step (s s' : LoopState) (env : Env) (tr : List Action) :
      Reachable s → loopStep s env = .next s' tr → Reachable s'

/-- The stream `try_connect` returns when it succeeds, `none` otherwise. -/
def connectOutcome (env : Env) : Option TcpStream :=
  match try_connect env with
  | (.ok (some st), _) => some st
  | _ => none

/-- Two consecutive loop iterations (when the first one continues). -/
def iterate2 (s : LoopState) (e1 e2 : Env) : StepResult :=
  match loopStep s e1 with
  | .next s1 _ => loopStep s1 e2
  | r => r

/-- All the host calls that the loop `.unwrap()`s succeed in `env`. -/
def Env.allOk (env : Env) : Prop :=
  exceptIsOk env.cfguModel = true ∧
  exceptIsOk env.autoExposure = true ∧
  exceptIsOk env.autoWhiteBalance = true ∧
  exceptIsOk env.trimming = true ∧
  (∀ st, exceptIsOk (env.peerAddr st) = true) ∧
  (∀ st, exceptIsOk (env.shutdownRes st) = true)

/-- A concrete stream handle for witnesses. -/
def stream1 : TcpStream := ⟨1⟩

/-- A concrete environment in which every host call succeeds and the
keyboard confirms the hint address. -/
def envBase : Env where
  keys := 0
  peekOk := fun _ => true
  keyboard := .ok ("192.168.1.1:5000", Button.right)
  connect := fun _ => .ok stream1
  peerAddr := fun _ => .ok "192.168.1.1:5000"
  shutdownRes := fun _ => .ok ()
  hostAddr := "10.0.0.7"
  cfguModel := .ok "3DS"
  autoExposure := .ok true
  autoWhiteBalance := .ok true
  trimming := .ok false

/-- `envBase` with only the A button held and the keyboard cancelled
via the Left button. -/
def envAHeldCancel : Env :=
  { envBase with keys := KeyPad.A, keyboard := .ok ("x", Button.left) }

/-- `envBase` with only the A button held (keyboard confirms, connect
succeeds). -/
def envAConnect : Env := { envBase with keys := KeyPad.A }

/-- `envBase` with only the B button held. -/
def envBHeld : Env := { envBase with keys := KeyPad.B }

/-- `envBase` with only the START button held. -/
def envStartHeld : Env := { envBase with keys := KeyPad.START }

/-- `envBase` with only A held and `TcpStream::connect` failing. -/
def envConnFail : Env :=
  { envBase with keys := KeyPad.A, connect := fun _ => .error ⟨5⟩ }

/-- `envBase` with only B held and `cfgu.model()` failing. -/
def envCfguErr : Env :=
  { envBase with keys := KeyPad.B, cfguModel := .error ⟨3⟩ }

/-- A loop state holding an open connection. -/
def sConnected1 : LoopState := { status := .connected, streamOrNone := some stream1 }

/-- A loop state sitting in the settings menu. -/
def sSettings : LoopState := { status := .settings, streamOrNone := none }

/-! ## General lemmas about the embedding -/

theorem exceptIsOk_iff {ε α : Type} (x : Except ε α) :
    exceptIsOk x = true ↔ ∃ a, x = .ok a := by
  cases x <;> simp [exceptIsOk]

theorem intersects_ne_empty {k b : Nat} (h : KeyPad.intersects k b = true) :
    k ≠ KeyPad.empty := by
  intro hk
  subst hk
  simp [KeyPad.intersects, KeyPad.empty] at h

theorem loopStep_of_start (s : LoopState) (env : Env)
    (h : KeyPad.intersects env.keys KeyPad.START = true) :
    loopStep s env = startExit s env := by
  have hk := intersects_ne_empty h
  simp [loopStep, dispatch, hk, h]

theorem loopStep_of_no_start (s : LoopState) (env : Env)
    (h0 : env.keys ≠ KeyPad.empty)
    (h : KeyPad.intersects env.keys KeyPad.START = false) :
    loopStep s env = dispatchStatus s env := by
  simp [loopStep, dispatch, h0, h]

theorem setup_of_ok (env : Env) (h : exceptIsOk env.cfguModel = true) :
    ∃ l, setup env = some l := by
  obtain ⟨m, hm⟩ := (exceptIsOk_iff env.cfguModel).mp h
  exact ⟨setupLines env.hostAddr m, by simp [setup, hm]⟩

theorem settings_of_ok (env : Env)
    (h1 : exceptIsOk env.autoExposure = true)
    (h2 : exceptIsOk env.autoWhiteBalance = true)
    (h3 : exceptIsOk env.trimming = true) :
    ∃ l, settings env = some l := by
  obtain ⟨ae, hae⟩ := (exceptIsOk_iff env.autoExposure).mp h1
  obtain ⟨awb, hawb⟩ := (exceptIsOk_iff env.autoWhiteBalance).mp h2
  obtain ⟨tr, htr⟩ := (exceptIsOk_iff env.trimming).mp h3
  refine ⟨[Action.println "Selected camera: yes",
           Action.println ("Auto exposure: " ++ toString ae),
           Action.println ("Auto white balance: " ++ toString awb),
           Action.println ("Trimming: " ++ toString tr)], ?_⟩
  simp [settings, hae, hawb, htr]

theorem notConnectedA_no_A (s : LoopState) (env : Env) (tr0 : List Action)
    (hA : KeyPad.intersects env.keys KeyPad.A = false) :
    notConnectedA s env tr0 = .next s (tr0 ++ gfxEnd) := by
  simp [notConnectedA, hA]

theorem notConnectedA_of_success (s : LoopState) (env : Env) (tr0 : List Action)
    (hA : KeyPad.intersects env.keys KeyPad.A = true)
    (c : TcpStream) (hc : connectOutcome env = some c)
    (hpa : exceptIsOk (env.peerAddr c) = true) :
    ∃ tr, notConnectedA s env tr0 =
      .next { status := .connected, streamOrNone := some c } tr := by
  obtain ⟨a, ha⟩ := (exceptIsOk_iff (env.peerAddr c)).mp hpa
  unfold connectOutcome at hc
  unfold notConnectedA
  rw [hA]
  simp only [if_true]
  rcases htc : try_connect env with ⟨res, ctr⟩
  rw [htc] at hc
  rcases res with e | v
  · simp at hc
  · rcases v with _ | st
    · simp at hc
    · simp only [Option.some.injEq] at hc
      subst hc
      refine ⟨tr0 ++ ctr ++ [Action.println ("Connected to " ++ a ++ ".")] ++ gfxEnd, ?_⟩
      simp [ha]

theorem notConnectedA_of_failure (s : LoopState) (env : Env) (tr0 : List Action)
    (hc : connectOutcome env = none) :
    ∃ tr, notConnectedA s env tr0 = .next s tr := by
  unfold connectOutcome at hc
  unfold notConnectedA
  split
  case isTrue =>
    rcases htc : try_connect env with ⟨res, ctr⟩
    rw [htc] at hc
    rcases res with e | v
    · exact ⟨_, rfl⟩
    · rcases v with _ | st
      · exact ⟨_, rfl⟩
      · simp at hc
  case isFalse => exact ⟨_, rfl⟩

theorem notConnectedA_next_cases (s : LoopState) (env : Env) (tr0 : List Action)
    (s' : LoopState) (tr : List Action)
    (h : notConnectedA s env tr0 = .next s' tr) :
    s' = s ∨
    (KeyPad.intersects env.keys KeyPad.A = true ∧
      ∃ c, connectOutcome env = some c ∧
        s' = { status := .connected, streamOrNone := some c }) := by
  unfold notConnectedA at h
  split at h
  case isTrue hA =>
    split at h
    case _ c ctr heq =>
      split at h
      · exact absurd h (by simp)
      case _ a ha =>
        refine Or.inr ⟨hA, c, ?_, ?_⟩
        · simp [connectOutcome, heq]
        · cases h
          rfl
    case _ ctr heq =>
      cases h
      exact Or.inl rfl
    case _ e ctr heq =>
      cases h
      exact Or.inl rfl
  case isFalse =>
    cases h
    exact Or.inl rfl

theorem startExit_no_next (s : LoopState) (env : Env) (s' : LoopState)
    (tr : List Action) : startExit s env ≠ .next s' tr := by
  unfold startExit
  split
  · split
    · split <;> simp
    · simp
  · simp

theorem dispatchStatus_next_stream (s s' : LoopState) (env : Env)
    (tr : List Action) (h : dispatchStatus s env = .next s' tr) :
    s'.streamOrNone = s.streamOrNone ∨
    (s.status = .notConnected ∧ KeyPad.intersects env.keys KeyPad.A = true ∧
      ∃ c, connectOutcome env = some c ∧ s'.streamOrNone = some c) := by
  obtain ⟨st, str⟩ := s
  cases st
  case notConnected =>
    simp only [dispatchStatus] at h
    split at h
    case isTrue hX =>
      split at h
      · cases h
      case _ l hl =>
        rcases notConnectedA_next_cases _ _ _ _ _ h with h1 | ⟨hA, c, hc, h1⟩
        · subst h1; exact Or.inl rfl
        · subst h1; exact Or.inr ⟨rfl, hA, c, hc, rfl⟩
    case isFalse hX =>
      rcases notConnectedA_next_cases _ _ _ _ _ h with h1 | ⟨hA, c, hc, h1⟩
      · subst h1; exact Or.inl rfl
      · subst h1; exact Or.inr ⟨rfl, hA, c, hc, rfl⟩
  case settings =>
    simp only [dispatchStatus] at h
    split at h
    · split at h
      · cases h
      · cases h; exact Or.inl rfl
    · cases h; exact Or.inl rfl
  case connected =>
    rcases str with _ | stream
    · simp only [dispatchStatus] at h
      cases h; exact Or.inl rfl
    · simp only [dispatchStatus] at h
      split at h
      · split at h
        · cases h
        case _ l hl =>
          split at h
          · cases h
          case _ a ha =>
            split at h
            · cases h
            · cases h; exact Or.inl rfl
      · cases h; exact Or.inl rfl

theorem loopStep_next_stream (s s' : LoopState) (env : Env) (tr : List Action)
    (h : loopStep s env = .next s' tr) :
    s'.streamOrNone = s.streamOrNone ∨
    (s.status = .notConnected ∧ KeyPad.intersects env.keys KeyPad.A = true ∧
      ∃ c, connectOutcome env = some c ∧ s'.streamOrNone = some c) := by
  unfold loopStep at h
  split at h
  case isTrue h0 =>
    unfold dispatch at h
    split at h
    case isTrue hS => exact absurd h (startExit_no_next s env s' tr)
    case isFalse hS => exact dispatchStatus_next_stream _ _ _ _ h
  case isFalse => cases h; exact Or.inl rfl

theorem loopStep_next_connected (s s' : LoopState) (env : Env)
    (tr : List Action) (h : loopStep s env = .next s' tr)
    (hc : s'.status = .connected) :
    s'.streamOrNone ≠ none ∨ s' = s := by
  unfold loopStep at h
  split at h
  case isFalse => cases h; exact Or.inr rfl
  case isTrue h0 =>
    unfold dispatch at h
    split at h
    case isTrue hS => exact absurd h (startExit_no_next s env s' tr)
    case isFalse hS =>
      obtain ⟨st, str⟩ := s
      cases st
      case notConnected =>
        simp only [dispatchStatus] at h
        split at h
        case isTrue hX =>
          split at h
          · cases h
          case _ l hl =>
            rcases notConnectedA_next_cases _ _ _ _ _ h with h1 | ⟨hA, c, hcon, h1⟩
            · subst h1; simp at hc
            · subst h1; exact Or.inl (by simp)
        case isFalse hX =>
          rcases notConnectedA_next_cases _ _ _ _ _ h with h1 | ⟨hA, c, hcon, h1⟩
          · subst h1; simp at hc
          · subst h1; exact Or.inl (by simp)
      case settings =>
        simp only [dispatchStatus] at h
        split at h
        · split at h
          · cases h
          · cases h; simp at hc
        · cases h; exact Or.inr rfl
      case connected =>
        rcases str with _ | stream
        · simp only [dispatchStatus] at h
          cases h; simp at hc
        · simp only [dispatchStatus] at h
          split at h
          · split at h
            · cases h
            case _ l hl =>
              split at h
              · cases h
              case _ a ha =>
                split at h
                · cases h
                · cases h; simp at hc
          · cases h; exact Or.inr rfl

/-! ## Claim theorems -/

/-- C1: the claim says the button-dispatch block runs exactly when the
current frame's key set differs from the previous frame's.  In the code,
`old_keys` is `KeyPad::empty()` declared before the loop and never
reassigned, so the block runs whenever any key is held at all.
Concretely: with only A held on two consecutive frames — the key set
unchanged between the frames, keyboard entry cancelled — the second
iteration still runs the dispatch block and opens the keyboard applet
again, although the key set equals the previous frame's. -/
theorem c1_dispatch_runs_with_unchanged_keys :
    envAHeldCancel.keys = KeyPad.A ∧
    loopStep initialState envAHeldCancel =
      .next initialState
        ([Action.openKeyboard, Action.println "Cancelled"] ++ gfxEnd) ∧
    iterate2 initialState envAHeldCancel envAHeldCancel =
      .next initialState
        ([Action.openKeyboard, Action.println "Cancelled"] ++ gfxEnd) :=
  ⟨rfl, rfl, rfl⟩

/-- C5: `init_cameras` sets the frame rate and then the output format; a
frame-rate error leaves the output format unset and is propagated to the
caller as `AppError::Ctru`, and `main`'s `.unwrap()` of that result
terminates the program before the loop starts (`startup` = `none`). -/
theorem c5_init_cameras_order (e : CtruError) (fo : Except CtruError Unit) :
    init_cameras (.error e) fo = (.error (.ctru e), [Action.setFrameRate]) ∧
    init_cameras (.ok ()) (.ok ()) =
      (.ok (), [Action.setFrameRate, Action.setOutputFormat]) ∧
    startup (.error e) fo = none ∧
    startup (.ok ()) (.ok ()) = some initialState :=
  ⟨rfl, rfl, rfl, rfl⟩

/-- Witness for C5 at a concrete frame-rate error. -/
theorem c5_init_cameras_order_witness :
    init_cameras (.error ⟨0⟩) (.ok ()) =
      (.error (.ctru ⟨0⟩), [Action.setFrameRate]) ∧
    startup (.error ⟨0⟩) (.ok ()) = none :=
  ⟨(c5_init_cameras_order ⟨0⟩ (.ok ())).1,
   (c5_init_cameras_order ⟨0⟩ (.ok ())).2.2.1⟩

/-- C9: `get_keyboard_text` returns `Some(text)` exactly when the applet
reports the Right (confirm) button, returns `None` for both Left and
Middle, wraps an applet error in `AppError::Swkbd`, and a cancelled entry
makes `try_connect` return `Ok(None)` with no TCP connect performed. -/
theorem c9_keyboard_text (env : Env) :
    (∀ t, get_keyboard_text env = .ok (some t) ↔
      env.keyboard = .ok (t, Button.right)) ∧
    (∀ t, env.keyboard = .ok (t, Button.left) →
      get_keyboard_text env = .ok none) ∧
    (∀ t, env.keyboard = .ok (t, Button.middle) →
      get_keyboard_text env = .ok none) ∧
    (∀ e, env.keyboard = .error e →
      get_keyboard_text env = .error (.swkbd e)) ∧
    (get_keyboard_text env = .ok none →
      try_connect env = (.ok none, [Action.openKeyboard])) := by
  refine ⟨?_, ?_, ?_, ?_, ?_⟩
  · intro t
    constructor
    · intro h
      unfold get_keyboard_text at h
      split at h <;> simp_all
    · intro h
      simp [get_keyboard_text, h]
  · intro t h; simp [get_keyboard_text, h]
  · intro t h; simp [get_keyboard_text, h]
  · intro e h; simp [get_keyboard_text, h]
  · intro h; simp [try_connect, h]

/-- Witness for C9: the confirm case, the Left-cancel case, and the
cancelled `try_connect` at concrete environments. -/
theorem c9_keyboard_text_witness :
    get_keyboard_text envBase = .ok (some "192.168.1.1:5000") ∧
    get_keyboard_text envAHeldCancel = .ok none ∧
    try_connect envAHeldCancel = (.ok none, [Action.openKeyboard]) :=
  ⟨((c9_keyboard_text envBase).1 "192.168.1.1:5000").mpr rfl,
   (c9_keyboard_text envAHeldCancel).2.1 "x" rfl,
   (c9_keyboard_text envAHeldCancel).2.2.2.2
     ((c9_keyboard_text envAHeldCancel).2.1 "x" rfl)⟩

/-- C3: pressing START with a stream stored whose `peek` succeeds shuts
the socket down in both directions and then breaks out of the loop;
with no stream stored (or a stored stream whose `peek` errors, i.e. no
open connection) the loop breaks with no shutdown call. -/
theorem c3_start_clean_shutdown (s : LoopState) (env : Env)
    (hstart : KeyPad.intersects env.keys KeyPad.START = true)
    (hsd : ∀ st, exceptIsOk (env.shutdownRes st) = true) :
    (∀ st, s.streamOrNone = some st → env.peekOk st = true →
      loopStep s env =
        .exitLoop [Action.println "Exiting...", Action.peekStream st,
                   Action.shutdownStream st]) ∧
    (∀ st, s.streamOrNone = some st → env.peekOk st = false →
      loopStep s env =
        .exitLoop [Action.println "Exiting...", Action.peekStream st]) ∧
    (s.streamOrNone = none →
      loopStep s env = .exitLoop [Action.println "Exiting..."]) := by
  refine ⟨?_, ?_, ?_⟩
  · intro st hs hp
    obtain ⟨u, hu⟩ := (exceptIsOk_iff (env.shutdownRes st)).mp (hsd st)
    rw [loopStep_of_start s env hstart]
    unfold startExit
    rw [hs]
    simp [hp, hu]
  · intro st hs hp
    rw [loopStep_of_start s env hstart]
    unfold startExit
    rw [hs]
    simp [hp]
  · intro hs
    rw [loopStep_of_start s env hstart]
    unfold startExit
    rw [hs]

/-- Witness for C3: START with an open connection shuts it down and
exits; START with no stored stream exits without a shutdown. -/
theorem c3_start_clean_shutdown_witness :
    loopStep sConnected1 envStartHeld =
      .exitLoop [Action.println "Exiting...", Action.peekStream stream1,
                 Action.shutdownStream stream1] ∧
    loopStep initialState envStartHeld =
      .exitLoop [Action.println "Exiting..."] :=
  ⟨(c3_start_clean_shutdown sConnected1 envStartHeld rfl (fun _ => rfl)).1
      stream1 rfl rfl,
   (c3_start_clean_shutdown initialState envStartHeld rfl (fun _ => rfl)).2.2
      rfl⟩

/-- C4: at most one open connection is held: a continuing iteration of
the loop either leaves the stored `Option<TcpStream>` unchanged, or —
only from `NotConnected` with A pressed and a successful connect —
replaces the stored option with the single newly connected stream. -/
theorem c4_single_connection (s s' : LoopState) (env : Env) (tr : List Action)
    (h : loopStep s env = .next s' tr) :
    s'.streamOrNone = s.streamOrNone ∨
    (s.status = .notConnected ∧ KeyPad.intersects env.keys KeyPad.A = true ∧
      ∃ c, connectOutcome env = some c ∧ s'.streamOrNone = some c) :=
  loopStep_next_stream s s' env tr h

/-- Witness for C4 at a concrete successful connection. -/
theorem c4_single_connection_witness :
    sConnected1.streamOrNone = initialState.streamOrNone ∨
    (initialState.status = .notConnected ∧
      KeyPad.intersects envAConnect.keys KeyPad.A = true ∧
      ∃ c, connectOutcome envAConnect = some c ∧
        sConnected1.streamOrNone = some c) :=
  c4_single_connection initialState sConnected1 envAConnect
    ([Action.openKeyboard,
      Action.println "Connecting to 192.168.1.1:5000...",
      Action.tcpConnect "192.168.1.1:5000",
      Action.println "Connected to 192.168.1.1:5000."] ++ gfxEnd) rfl

/-- C10: a `Connected` state with no stored stream is reset to
`NotConnected` with no other effect on the next input-change event
(trace is just the end-of-frame gfx calls), and every reachable state
at the top of a loop iteration satisfies the invariant that
`status == Connected` implies a stream is stored. -/
theorem c10_connected_has_stream :
    (∀ s env, s.status = .connected → s.streamOrNone = none →
      env.keys ≠ KeyPad.empty →
      KeyPad.intersects env.keys KeyPad.START = false →
      loopStep s env = .next { s with status := .notConnected } gfxEnd) ∧
    (∀ s, Reachable s → s.status = .connected → s.streamOrNone ≠ none) := by
  constructor
  · intro s env hc hn h0 hS
    rw [loopStep_of_no_start s env h0 hS]
    obtain ⟨st, str⟩ := s
    simp only at hc hn
    subst hc
    subst hn
    simp [dispatchStatus]
  · intro s h
    induction h with
    | init => intro hc; simp [initialState] at hc
    | step s s' env tr hr hstep ih =>
      intro hc
      rcases loopStep_next_connected s s' env tr hstep hc with h1 | h1
      · exact h1
      · subst h1; exact ih hc

/-- Witness for C10: the reset at a concrete state, and the invariant at
a concrete reachable connected state. -/
theorem c10_connected_has_stream_witness :
    loopStep { status := .connected, streamOrNone := none } envBHeld =
      .next { status := .notConnected, streamOrNone := none } gfxEnd ∧
    sConnected1.streamOrNone ≠ none :=
  ⟨c10_connected_has_stream.1 { status := .connected, streamOrNone := none }
      envBHeld rfl rfl (by decide) rfl,
   c10_connected_has_stream.2 sConnected1
     (Reachable.step initialState sConnected1 envAConnect
       ([Action.openKeyboard,
         Action.println "Connecting to 192.168.1.1:5000...",
         Action.tcpConnect "192.168.1.1:5000",
         Action.println "Connected to 192.168.1.1:5000."] ++ gfxEnd)
       Reachable.init rfl)
     rfl⟩

/-- C6: a connection attempt runs the keyboard applet first (the trace of
`try_connect` always begins with it) and performs the TCP connect only
when a text was confirmed, to that text as the address; a keyboard or
connect error surfaces in the main loop as a single printed error line,
the state remains `NotConnected`, and the iteration continues with no
retry. -/
theorem c6_connect_order_and_errors (s : LoopState) (env : Env) :
    ((try_connect env).2.head? = some Action.openKeyboard) ∧
    (∀ t, Action.tcpConnect t ∈ (try_connect env).2 →
      env.keyboard = .ok (t, Button.right) ∧
      (try_connect env).2 =
        [Action.openKeyboard,
         Action.println ("Connecting to " ++ t ++ "..."),
         Action.tcpConnect t]) ∧
    (∀ e, (try_connect env).1 = .error e →
      s.status = .notConnected →
      KeyPad.intersects env.keys KeyPad.A = true →
      KeyPad.intersects env.keys KeyPad.X = false →
      KeyPad.intersects env.keys KeyPad.START = false →
      loopStep s env =
        .next s ((try_connect env).2 ++
          [Action.println (AppError.message e)] ++ gfxEnd)) := by
  refine ⟨?_, ?_, ?_⟩
  · unfold try_connect
    rcases hkb : get_keyboard_text env with e | v
    · rfl
    · rcases v with _ | t
      · rfl
      · rcases hcn : env.connect t with e | st <;> simp [hcn]
  · intro t hmem
    unfold try_connect at hmem ⊢
    split at hmem
    case _ e heq => simp at hmem
    case _ heq => simp at hmem
    case _ t' heq =>
      split at hmem <;>
      · simp only [List.mem_cons, List.not_mem_nil, or_false] at hmem
        rcases hmem with h | h | h
        · exact absurd h (by simp)
        · exact absurd h (by simp)
        · cases h
          refine ⟨?_, by simp⟩
          unfold get_keyboard_text at heq
          split at heq <;> simp_all
  · intro e herr hst hA hX hS
    have h0 : env.keys ≠ KeyPad.empty := intersects_ne_empty hA
    rw [loopStep_of_no_start s env h0 hS]
    obtain ⟨stt, str⟩ := s
    simp only at hst
    subst hst
    simp only [dispatchStatus, hX, Bool.false_eq_true, if_false]
    unfold notConnectedA
    rw [hA]
    simp only [if_true]
    rcases htc : try_connect env with ⟨res, ctr⟩
    rw [htc] at herr
    simp only at herr
    subst herr
    simp

/-- Witness for C6: a failing TCP connect at a concrete environment is
printed as its single error line and the state stays `NotConnected`. -/
theorem c6_connect_order_and_errors_witness :
    loopStep initialState envConnFail =
      .next initialState ((try_connect envConnFail).2 ++
        [Action.println (AppError.message (.ioError ⟨5⟩))] ++ gfxEnd) :=
  (c6_connect_order_and_errors initialState envConnFail).2.2
    (.ioError ⟨5⟩) rfl rfl rfl rfl rfl

/-- C7: every error is handled in exactly one of two ways: an error from
the connection attempt (keyboard applet or TCP connect) is printed as a
single line after which the loop continues unchanged, while every other
fallible call is `.unwrap()`ed, so an error there aborts the process:
`cfgu.model()` in `setup`, the camera queries in `settings`, `peer_addr`
after a connect and on disconnect, and `shutdown` on disconnect and on
exit. -/
theorem c7_error_paths (s : LoopState) (env : Env) :
    (∀ e, (try_connect env).1 = .error e →
      s.status = .notConnected →
      KeyPad.intersects env.keys KeyPad.A = true →
      KeyPad.intersects env.keys KeyPad.X = false →
      KeyPad.intersects env.keys KeyPad.START = false →
      loopStep s env =
        .next s ((try_connect env).2 ++
          [Action.println (AppError.message e)] ++ gfxEnd)) ∧
    (setup env = none → s.status = .settings →
      KeyPad.intersects env.keys KeyPad.B = true →
      KeyPad.intersects env.keys KeyPad.START = false →
      loopStep s env = .panicked [Action.consoleClear]) ∧
    (settings env = none → s.status = .notConnected →
      KeyPad.intersects env.keys KeyPad.X = true →
      KeyPad.intersects env.keys KeyPad.START = false →
      loopStep s env = .panicked []) ∧
    (∀ st e, s.streamOrNone = some st → env.shutdownRes st = .error e →
      KeyPad.intersects env.keys KeyPad.START = true →
      env.peekOk st = true →
      loopStep s env =
        .panicked [Action.println "Exiting...", Action.peekStream st,
                   Action.shutdownStream st]) ∧
    (∀ c e, connectOutcome env = some c → env.peerAddr c = .error e →
      s.status = .notConnected →
      KeyPad.intersects env.keys KeyPad.A = true →
      KeyPad.intersects env.keys KeyPad.X = false →
      KeyPad.intersects env.keys KeyPad.START = false →
      ∃ tr, loopStep s env = .panicked tr) ∧
    (∀ st l e, s.streamOrNone = some st → s.status = .connected →
      KeyPad.intersects env.keys KeyPad.B = true →
      KeyPad.intersects env.keys KeyPad.START = false →
      setup env = some l → env.peerAddr st = .error e →
      loopStep s env = .panicked ([Action.consoleClear] ++ l)) ∧
    (∀ st l a e, s.streamOrNone = some st → s.status = .connected →
      KeyPad.intersects env.keys KeyPad.B = true →
      KeyPad.intersects env.keys KeyPad.START = false →
      setup env = some l → env.peerAddr st = .ok a →
      env.shutdownRes st = .error e →
      loopStep s env =
        .panicked ([Action.consoleClear] ++ l ++
          [Action.println ("Disconnected from " ++ a ++ "."),
           Action.shutdownStream st])) := by
  refine ⟨?_, ?_, ?_, ?_, ?_, ?_, ?_⟩
  · intro e herr hst hA hX hS
    have h0 : env.keys ≠ KeyPad.empty := intersects_ne_empty hA
    rw [loopStep_of_no_start s env h0 hS]
    obtain ⟨stt, str⟩ := s
    simp only at hst
    subst hst
    simp only [dispatchStatus, hX, Bool.false_eq_true, if_false]
    unfold notConnectedA
    rw [hA]
    simp only [if_true]
    rcases htc : try_connect env with ⟨res, ctr⟩
    rw [htc] at herr
    simp only at herr
    subst herr
    simp
  · intro hsetup hst hB hS
    have h0 : env.keys ≠ KeyPad.empty := intersects_ne_empty hB
    rw [loopStep_of_no_start s env h0 hS]
    obtain ⟨stt, str⟩ := s
    simp only at hst
    subst hst
    simp [dispatchStatus, hB, hsetup]
  · intro hsettings hst hX hS
    have h0 : env.keys ≠ KeyPad.empty := intersects_ne_empty hX
    rw [loopStep_of_no_start s env h0 hS]
    obtain ⟨stt, str⟩ := s
    simp only at hst
    subst hst
    simp [dispatchStatus, hX, hsettings]
  · intro st e hstream hsd hS hp
    rw [loopStep_of_start s env hS]
    unfold startExit
    rw [hstream]
    simp [hp, hsd]
  · intro c e hc hpa hst hA hX hS
    have h0 : env.keys ≠ KeyPad.empty := intersects_ne_empty hA
    rw [loopStep_of_no_start s env h0 hS]
    obtain ⟨stt, str⟩ := s
    simp only at hst
    subst hst
    simp only [dispatchStatus, hX, Bool.false_eq_true, if_false]
    unfold connectOutcome at hc
    unfold notConnectedA
    rw [hA]
    simp only [if_true]
    rcases htc : try_connect env with ⟨res, ctr⟩
    rw [htc] at hc
    rcases res with e' | v
    · simp at hc
    · rcases v with _ | c'
      · simp at hc
      · simp only [Option.some.injEq] at hc
        subst hc
        exact ⟨[] ++ ctr, by simp [hpa]⟩
  · intro st l e hstream hst hB hS hsetup hpa
    have h0 : env.keys ≠ KeyPad.empty := intersects_ne_empty hB
    rw [loopStep_of_no_start s env h0 hS]
    obtain ⟨stt, str⟩ := s
    simp only at hst hstream
    subst hst
    subst hstream
    simp [dispatchStatus, hB, hsetup, hpa]
  · intro st l a e hstream hst hB hS hsetup hpa hsd
    have h0 : env.keys ≠ KeyPad.empty := intersects_ne_empty hB
    rw [loopStep_of_no_start s env h0 hS]
    obtain ⟨stt, str⟩ := s
    simp only at hst hstream
    subst hst
    subst hstream
    simp [dispatchStatus, hB, hsetup, hpa, hsd]

/-- Witness for C7: a `cfgu.model()` error during the Settings→back
transition panics the process at a concrete environment. -/
theorem c7_error_paths_witness :
    loopStep sSettings envCfguErr = .panicked [Action.consoleClear] :=
  (c7_error_paths sSettings envCfguErr).2.1 rfl rfl rfl rfl

/-- C8: disconnecting with B in `Connected` shuts the socket down and
sets the status to `NotConnected` while LEAVING the now shut-down stream
stored in the `Option<TcpStream>`; the stored stream is only ever
replaced by a later successful connect; and the START handler peeks the
stored socket (a stored stream does not by itself mean the connection is
open). -/
theorem c8_disconnect_keeps_stream (s : LoopState) (env : Env)
    (st : TcpStream) (hstream : s.streamOrNone = some st) :
    (s.status = .connected →
      KeyPad.intersects env.keys KeyPad.B = true →
      KeyPad.intersects env.keys KeyPad.START = false →
      exceptIsOk env.cfguModel = true →
      exceptIsOk (env.peerAddr st) = true →
      exceptIsOk (env.shutdownRes st) = true →
      ∃ tr, loopStep s env =
        .next { status := .notConnected, streamOrNone := some st } tr ∧
        Action.shutdownStream st ∈ tr) ∧
    (∀ s' tr, loopStep s env = .next s' tr →
      s'.streamOrNone = some st ∨
      ∃ c, connectOutcome env = some c ∧ s'.streamOrNone = some c) ∧
    (KeyPad.intersects env.keys KeyPad.START = true →
      ∃ tr, (loopStep s env = .exitLoop tr ∨ loopStep s env = .panicked tr) ∧
        Action.peekStream st ∈ tr) := by
  refine ⟨?_, ?_, ?_⟩
  · intro hst hB hS hcf hpa hsd
    obtain ⟨l, hl⟩ := setup_of_ok env hcf
    obtain ⟨a, ha⟩ := (exceptIsOk_iff (env.peerAddr st)).mp hpa
    obtain ⟨u, hu⟩ := (exceptIsOk_iff (env.shutdownRes st)).mp hsd
    have h0 : env.keys ≠ KeyPad.empty := intersects_ne_empty hB
    rw [loopStep_of_no_start s env h0 hS]
    obtain ⟨stt, str⟩ := s
    simp only at hst hstream
    subst hst
    subst hstream
    refine ⟨[Action.consoleClear] ++ l ++
      [Action.println ("Disconnected from " ++ a ++ "."),
       Action.shutdownStream st] ++ gfxEnd, ?_, by simp⟩
    simp [dispatchStatus, hB, hl, ha, hu]
  · intro s' tr h
    rcases loopStep_next_stream s s' env tr h with h1 | ⟨_, _, c, hc, h1⟩
    · rw [h1, hstream]
      exact Or.inl rfl
    · exact Or.inr ⟨c, hc, h1⟩
  · intro hS
    rw [loopStep_of_start s env hS]
    unfold startExit
    rw [hstream]
    cases hp : env.peekOk st
    · exact ⟨[Action.println "Exiting...", Action.peekStream st],
        by simp [hp], by simp⟩
    · rcases hsd : env.shutdownRes st with e | u
      · exact ⟨[Action.println "Exiting...", Action.peekStream st,
          Action.shutdownStream st], by simp [hp, hsd], by simp⟩
      · exact ⟨[Action.println "Exiting...", Action.peekStream st,
          Action.shutdownStream st], by simp [hp, hsd], by simp⟩

/-- Witness for C8: the concrete disconnect in `Connected` with B held
keeps `Some(stream)` stored while the status returns to `NotConnected`. -/
theorem c8_disconnect_keeps_stream_witness :
    ∃ tr, loopStep sConnected1 envBHeld =
      .next { status := .notConnected, streamOrNone := some stream1 } tr ∧
      Action.shutdownStream stream1 ∈ tr :=
  (c8_disconnect_keeps_stream sConnected1 envBHeld stream1 rfl).1
    rfl rfl rfl rfl rfl rfl

/-- C2: the application status ranges over the three `AppStatus` values,
and the transitions of the loop are exactly: START exits the loop from
any state; in `NotConnected`, X moves to `Settings` and A moves to
`Connected` exactly when the connection attempt returns a stream (a
failed or cancelled attempt leaves the state unchanged); in `Settings`,
B returns to `NotConnected`; in `Connected`, B returns to `NotConnected`
(disconnecting); and when none of the relevant buttons for the current
state is pressed, no transition occurs.  Stated for environments whose
`.unwrap()`ed host calls succeed and states satisfying the
connected-implies-stream invariant of reachable states. -/
theorem c2_state_machine (s : LoopState) (env : Env)
    (hok : env.allOk)
    (hinv : s.status = .connected → s.streamOrNone ≠ none) :
    (KeyPad.intersects env.keys KeyPad.START = true →
      ∃ tr, loopStep s env = .exitLoop tr) ∧
    (KeyPad.intersects env.keys KeyPad.START = false →
      ((s.status = .notConnected →
          KeyPad.intersects env.keys KeyPad.X = true →
          KeyPad.intersects env.keys KeyPad.A = false →
          ∃ tr, loopStep s env = .next { s with status := .settings } tr) ∧
       (s.status = .notConnected →
          KeyPad.intersects env.keys KeyPad.A = true →
          (∀ c, connectOutcome env = some c →
            ∃ tr, loopStep s env =
              .next { status := .connected, streamOrNone := some c } tr) ∧
          (connectOutcome env = none →
            KeyPad.intersects env.keys KeyPad.X = false →
            ∃ tr, loopStep s env = .next s tr)) ∧
       (s.status = .settings →
          KeyPad.intersects env.keys KeyPad.B = true →
          ∃ tr, loopStep s env = .next { s with status := .notConnected } tr) ∧
       (s.status = .connected →
          KeyPad.intersects env.keys KeyPad.B = true →
          ∃ tr, loopStep s env = .next { s with status := .notConnected } tr) ∧
       ((s.status = .notConnected →
          KeyPad.intersects env.keys KeyPad.X = false →
          KeyPad.intersects env.keys KeyPad.A = false →
          ∃ tr, loopStep s env = .next s tr) ∧
        (s.status = .settings →
          KeyPad.intersects env.keys KeyPad.B = false →
          env.keys ≠ KeyPad.empty →
          loopStep s env = .next s gfxEnd) ∧
        (s.status = .connected →
          KeyPad.intersects env.keys KeyPad.B = false →
          env.keys ≠ KeyPad.empty →
          loopStep s env = .next s gfxEnd)))) := by
  obtain ⟨hcf, hae, hawb, htrim, hpeer, hshut⟩ := hok
  constructor
  · intro hS
    rw [loopStep_of_start s env hS]
    unfold startExit
    rcases hstream : s.streamOrNone with _ | st
    · exact ⟨[Action.println "Exiting..."], rfl⟩
    · cases hp : env.peekOk st
      · exact ⟨[Action.println "Exiting...", Action.peekStream st],
          by simp [hp]⟩
      · obtain ⟨u, hu⟩ := (exceptIsOk_iff (env.shutdownRes st)).mp (hshut st)
        exact ⟨[Action.println "Exiting...", Action.peekStream st,
          Action.shutdownStream st], by simp [hp, hu]⟩
  · intro hS
    refine ⟨?_, ?_, ?_, ?_, ?_, ?_, ?_⟩
    · intro hst hX hA
      obtain ⟨l, hl⟩ := settings_of_ok env hae hawb htrim
      have h0 : env.keys ≠ KeyPad.empty := intersects_ne_empty hX
      rw [loopStep_of_no_start s env h0 hS]
      obtain ⟨stt, str⟩ := s
      simp only at hst
      subst hst
      refine ⟨l ++ gfxEnd, ?_⟩
      simp only [dispatchStatus, hX, if_true, hl]
      exact notConnectedA_no_A _ env l hA
    · intro hst hA
      have h0 : env.keys ≠ KeyPad.empty := intersects_ne_empty hA
      rw [loopStep_of_no_start s env h0 hS]
      obtain ⟨stt, str⟩ := s
      simp only at hst
      subst hst
      constructor
      · intro c hc
        cases hX : KeyPad.intersects env.keys KeyPad.X
        · simp only [dispatchStatus, hX, Bool.false_eq_true, if_false]
          exact notConnectedA_of_success _ env [] hA c hc (hpeer c)
        · obtain ⟨l, hl⟩ := settings_of_ok env hae hawb htrim
          simp only [dispatchStatus, hX, if_true, hl]
          exact notConnectedA_of_success _ env l hA c hc (hpeer c)
      · intro hc hX
        simp only [dispatchStatus, hX, Bool.false_eq_true, if_false]
        exact notConnectedA_of_failure _ env [] hc
    · intro hst hB
      obtain ⟨l, hl⟩ := setup_of_ok env hcf
      have h0 : env.keys ≠ KeyPad.empty := intersects_ne_empty hB
      rw [loopStep_of_no_start s env h0 hS]
      obtain ⟨stt, str⟩ := s
      simp only at hst
      subst hst
      refine ⟨[Action.consoleClear] ++ l ++ gfxEnd, ?_⟩
      simp [dispatchStatus, hB, hl]
    · intro hst hB
      rcases hstream : s.streamOrNone with _ | st
      · exact absurd hstream (hinv hst)
      · obtain ⟨l, hl⟩ := setup_of_ok env hcf
        obtain ⟨a, ha⟩ := (exceptIsOk_iff (env.peerAddr st)).mp (hpeer st)
        obtain ⟨u, hu⟩ := (exceptIsOk_iff (env.shutdownRes st)).mp (hshut st)
        have h0 : env.keys ≠ KeyPad.empty := intersects_ne_empty hB
        rw [loopStep_of_no_start s env h0 hS]
        obtain ⟨stt, str⟩ := s
        simp only at hst hstream
        subst hst
        subst hstream
        refine ⟨[Action.consoleClear] ++ l ++
          [Action.println ("Disconnected from " ++ a ++ "."),
           Action.shutdownStream st] ++ gfxEnd, ?_⟩
        simp [dispatchStatus, hB, hl, ha, hu]
    · intro hst hX hA
      by_cases h0 : env.keys = KeyPad.empty
      · exact ⟨gfxEnd, by simp [loopStep, h0]⟩
      · rw [loopStep_of_no_start s env h0 hS]
        obtain ⟨stt, str⟩ := s
        simp only at hst
        subst hst
        refine ⟨gfxEnd, ?_⟩
        simp only [dispatchStatus, hX, Bool.false_eq_true, if_false]
        have h1 := notConnectedA_no_A ⟨AppStatus.notConnected, str⟩ env [] hA
        simpa using h1
    · intro hst hB h0
      rw [loopStep_of_no_start s env h0 hS]
      obtain ⟨stt, str⟩ := s
      simp only at hst
      subst hst
      simp [dispatchStatus, hB]
    · intro hst hB h0
      rcases hstream : s.streamOrNone with _ | st
      · exact absurd hstream (hinv hst)
      · rw [loopStep_of_no_start s env h0 hS]
        obtain ⟨stt, str⟩ := s
        simp only at hst hstream
        subst hst
        subst hstream
        simp [dispatchStatus, hB]

/-- Witness for C2: the Settings→NotConnected transition on B at a
concrete state and environment. -/
theorem c2_state_machine_witness :
    ∃ tr, loopStep sSettings envBHeld =
      .next { sSettings with status := .notConnected } tr :=
  ((c2_state_machine sSettings envBHeld
      ⟨rfl, rfl, rfl, rfl, fun _ => rfl, fun _ => rfl⟩
      (fun h => by simp [sSettings] at h)).2 rfl).2.2.1 rfl rfl

end CtrCamera
